import Mathlib

/-!
# A shallow embedding of the Zyntalic translation core

This file models, in Lean, the parts of the `zyntalic` Python package that the
verified properties below talk about:

* `zyntalic/translator.py`  — sentence splitting, lemma cleaning, the
  per-sentence orchestration (`translate_sentence`, `translate_text`);
* `zyntalic/embeddings.py`  — the deterministic hash-seeded fallback embedding;
* `zyntalic/morphology.py`  — vowel harmony, noun/verb inflection, derivation;
* `zyntalic/phonology.py`   — syllable validity, word generation, sound changes;
* `zyntalic/syntax.py`      — tokenisation and the S-O-V-C sentence parse.

Modelling conventions:

* Python strings are Lean `String`s; character-level work happens on `List Char`.
  Whitespace and lower-casing are modelled for the character repertoire the
  package actually manipulates (ASCII plus the accented letters and Hangul jamo
  occurring in its tables); full Unicode classification is out of scope.
* Functions that can raise return `Except PyErr`; everything else is total.
* `random.Random` streams and the `blake2b` digest are abstracted to concrete
  deterministic stand-ins: what the proofs rely on — and what the source
  guarantees — is only that the seed is a pure function of the input bytes and
  the stream a pure function of the seed, never the particular values drawn.
* Where a function could observe ambient process state, the model passes an
  explicit `world : Nat` argument standing for that state; a definition that
  ignores `world` is the image of source code that reads no ambient state.
* `zyntalic/core.py` is imported throughout the package but is not part of this
  source tree; it is modelled from the specification (see `generate_entry`).
-/

namespace Zyntalic

/-! ## Python string primitives -/

/-- The whitespace characters recognised by `str.strip` / `\s`, restricted to
the ASCII repertoire used by the package. -/
def pyWs (c : Char) : Bool :=
  c == ' ' || c == '\t' || c == '\n' || c == '\r' || c == '\x0b' || c == '\x0c'

/-- `str.strip()` on a character list: drop whitespace from both ends. -/
def pyStripL (l : List Char) : List Char :=
  ((l.dropWhile pyWs).reverse.dropWhile pyWs).reverse

/-- `str.strip()`. -/
def pyStrip (s : String) : String := String.mk (pyStripL s.toList)

/-- `str.lower()` for the character repertoire appearing in the package's
tables: ASCII letters plus the accented Latin letters of the suffix tables.
Hangul jamo (and any other character) are unchanged, as in Python. -/
def pyLowerChar (c : Char) : Char :=
  if c = 'Á' then 'á' else if c = 'É' then 'é'
  else if c = 'Í' then 'í' else if c = 'Ó' then 'ó'
  else if c = 'Ö' then 'ö' else if c = 'Ő' then 'ő'
  else if c = 'Ú' then 'ú' else if c = 'Ü' then 'ü'
  else if c = 'Ű' then 'ű' else if c = 'Ą' then 'ą'
  else if c = 'Ę' then 'ę' else if c = 'Ł' then 'ł'
  else if c = 'Ż' then 'ż' else if c = 'Ś' then 'ś'
  else c.toLower

/-- `str.lower()`. -/
def pyLower (s : String) : String := String.mk (s.toList.map pyLowerChar)

/-- `suffix in`-style test: does `s` end with `suf`? (`str.endswith`). -/
def pyEndsWith (s suf : String) : Bool := suf.toList.isSuffixOf s.toList

/-- `str.split()` with no argument: split on runs of whitespace, dropping
empty pieces.  Structured as a single structural recursion with the current
(reversed) word as accumulator. -/
def pySplitWsGo : List Char → List Char → List String
  | [], buff => if buff.isEmpty then [] else [String.mk buff.reverse]
  | c :: rest, buff =>
    if pyWs c then
      if buff.isEmpty then pySplitWsGo rest []
      else String.mk buff.reverse :: pySplitWsGo rest []
    else pySplitWsGo rest (c :: buff)

/-- `str.split()`. -/
def pySplitWs (s : String) : List String := pySplitWsGo s.toList []

/-- Errors the modelled code can raise. -/
inductive PyErr where
  | attributeError
  | valueError (msg : String)
  deriving DecidableEq

deriving instance DecidableEq for Except

/-! ## `zyntalic/morphology.py` -/

/-- `class Case(Enum)`. -/
inductive Case where
  | nominative | accusative | genitive | dative | locative | instrumental
  deriving DecidableEq

/-- The `.value` short codes of `Case`. -/
def Case.value : Case → String
  | .nominative => "nom" | .accusative => "acc" | .genitive => "gen"
  | .dative => "dat" | .locative => "loc" | .instrumental => "ins"

/-- `class Aspect(Enum)`. -/
inductive Aspect where
  | perfective | imperfective | iterative
  deriving DecidableEq

/-- The `.value` short codes of `Aspect`. -/
def Aspect.value : Aspect → String
  | .perfective => "pfv" | .imperfective => "ipfv" | .iterative => "iter"

/-- `class Evidentiality(Enum)`. -/
inductive Evidentiality where
  | direct | hearsay | inferential | assumptive
  deriving DecidableEq

/-- The `.value` short codes of `Evidentiality`. -/
def Evidentiality.value : Evidentiality → String
  | .direct => "dir" | .hearsay => "hear" | .inferential => "inf"
  | .assumptive => "assm"

/-- `class Number(Enum)`. -/
inductive Number where
  | singular | plural | collective
  deriving DecidableEq

/-- The `.value` short codes of `Number`. -/
def Number.value : Number → String
  | .singular => "sg" | .plural => "pl" | .collective => "col"

/-- `class Tense(Enum)`. -/
inductive Tense where
  | past | present | future | gnomic
  deriving DecidableEq

/-- The `.value` short codes of `Tense`. -/
def Tense.value : Tense → String
  | .past => "pst" | .present => "prs" | .future => "fut" | .gnomic => "gnom"

/-- `FRONT_VOWELS` (morphology.py line 57), verbatim. -/
def FRONT_VOWELS : List Char :=
  ['ᅡ', 'ᅢ', 'ᅣ', 'ᅤ', 'ᅦ', 'ᅧ', 'ᅨ', 'e', 'é', 'i', 'í', 'ö', 'ő', 'ü', 'ű']

/-- `BACK_VOWELS` (morphology.py lines 58-59), verbatim. -/
def BACK_VOWELS : List Char :=
  ['ᅥ', 'ᅩ', 'ᅪ', 'ᅫ', 'ᅬ', 'ᅭ', 'ᅮ', 'ᅯ', 'ᅰ', 'ᅱ', 'ᅲ', 'ᅳ', 'ᅴ', 'ᅵ',
   'a', 'á', 'o', 'ó', 'u', 'ú']

/-- The `vowels_found` list built by `get_vowel_harmony`: one tag (`"front"` or
`"back"`) per classified vowel of the lower-cased word, front checked first. -/
def harmonyTags (word : String) : List String :=
  (pyLower word).toList.filterMap fun ch =>
    if ch ∈ FRONT_VOWELS then some "front"
    else if ch ∈ BACK_VOWELS then some "back"
    else none

/-- `get_vowel_harmony` (morphology.py lines 62-78): compare counts, default to
`"back"` on a tie or when no classified vowel occurs. -/
def get_vowel_harmony (word : String) : String :=
  let tags := harmonyTags word
  if tags = [] then "back"
  else
    let front_count := (tags.filter (· = "front")).length
    let back_count := (tags.filter (· = "back")).length
    if back_count < front_count then "front" else "back"

/-- A `front`/`back` allomorph pair, the value type of the suffix dicts. -/
structure HarmonyPair where
  front : String
  back : String
  deriving DecidableEq

/-- Dict lookup `pair[harmony]` where `harmony` is the string returned by
`get_vowel_harmony` (always `"front"` or `"back"`). -/
def selHarmony (p : HarmonyPair) (harmony : String) : String :=
  if harmony = "front" then p.front else p.back

/-- `CASE_SUFFIXES`. -/
def CASE_SUFFIXES : Case → HarmonyPair
  | .nominative => ⟨"", ""⟩
  | .accusative => ⟨"-eł", "-oł"⟩
  | .genitive => ⟨"-nek", "-nok"⟩
  | .dative => ⟨"-re", "-ra"⟩
  | .locative => ⟨"-ben", "-ban"⟩
  | .instrumental => ⟨"-vel", "-val"⟩

/-- A `NUMBER_SUFFIXES` entry: the singular maps to a plain string, the others
to a harmony dict (the source checks `isinstance(..., dict)`). -/
inductive NumberSuffix where
  | plain (s : String)
  | harm (p : HarmonyPair)
  deriving DecidableEq

/-- `NUMBER_SUFFIXES`. -/
def NUMBER_SUFFIXES : Number → NumberSuffix
  | .singular => .plain ""
  | .plural => .harm ⟨"-ek", "-ok"⟩
  | .collective => .harm ⟨"-ség", "-ság"⟩

/-- `ASPECT_SUFFIXES`. -/
def ASPECT_SUFFIXES : Aspect → HarmonyPair
  | .perfective => ⟨"-meł", "-moł"⟩
  | .imperfective => ⟨"-ísz", "-ász"⟩
  | .iterative => ⟨"-géł", "-gáł"⟩

/-- `EVIDENTIALITY_SUFFIXES`. -/
def EVIDENTIALITY_SUFFIXES : Evidentiality → HarmonyPair
  | .direct => ⟨"-déł", "-dáł"⟩
  | .hearsay => ⟨"-kéł", "-káł"⟩
  | .inferential => ⟨"-téł", "-táł"⟩
  | .assumptive => ⟨"-véł", "-váł"⟩

/-- `TENSE_SUFFIXES`. -/
def TENSE_SUFFIXES : Tense → HarmonyPair
  | .past => ⟨"-eć", "-ać"⟩
  | .present => ⟨"-esz", "-asz"⟩
  | .future => ⟨"-ész", "-ász"⟩
  | .gnomic => ⟨"-ím", "-ám"⟩

/-- `DERIVATIONAL_SUFFIXES`, a string-keyed dict; `none` models a missing key. -/
def DERIVATIONAL_SUFFIXES (dt : String) : Option HarmonyPair :=
  if dt = "agent" then some ⟨"-ész", "-ász"⟩
  else if dt = "instrument" then some ⟨"-ény", "-ány"⟩
  else if dt = "abstract" then some ⟨"-ség", "-ság"⟩
  else if dt = "diminutive" then some ⟨"-ka", "-ko"⟩
  else if dt = "augmentative" then some ⟨"-úł", "-úł"⟩
  else if dt = "verbal_noun" then some ⟨"-ésí", "-ásí"⟩
  else none

/-- `@dataclass MorphemeBundle`. -/
structure MorphemeBundle where
  case : Option Case := none
  number : Option Number := none
  aspect : Option Aspect := none
  evidentiality : Option Evidentiality := none
  tense : Option Tense := none
  derivations : List String := []
  deriving DecidableEq

/-- `@dataclass InflectedWord`. -/
structure InflectedWord where
  root : String
  morphemes : MorphemeBundle
  surface_form : String
  gloss : String
  pos : String
  deriving DecidableEq

/-- The surface form built by `inflect_noun` for a given harmony class:
root, then the number suffix (skipped for the singular), then the case
suffix (skipped for the nominative). -/
def nounSurface (root : String) (c : Case) (n : Number) (harmony : String) : String :=
  root
    ++ (if n ≠ Number.singular then
          match NUMBER_SUFFIXES n with
          | .plain s => s
          | .harm p => selHarmony p harmony
        else "")
    ++ (if c ≠ Case.nominative then selHarmony (CASE_SUFFIXES c) harmony else "")

/-- `MorphologicalProcessor.inflect_noun` (morphology.py lines 164-198). -/
def inflect_noun (root : String) (c : Case := Case.nominative)
    (n : Number := Number.singular) : InflectedWord :=
  let harmony := get_vowel_harmony root
  let gloss_parts := [root]
    ++ (if n ≠ Number.singular then [n.value] else [])
    ++ (if c ≠ Case.nominative then [c.value] else [])
  { root := root
    morphemes := { case := some c, number := some n }
    surface_form := nounSurface root c n harmony
    gloss := String.intercalate "-" gloss_parts
    pos := "noun" }

/-- The surface form built by `inflect_verb` for a given harmony class:
root, aspect suffix, tense suffix, then the evidentiality suffix when one is
given. -/
def verbSurface (root : String) (t : Tense) (a : Aspect)
    (ev : Option Evidentiality) (harmony : String) : String :=
  root ++ selHarmony (ASPECT_SUFFIXES a) harmony
    ++ selHarmony (TENSE_SUFFIXES t) harmony
    ++ (match ev with
        | some e => selHarmony (EVIDENTIALITY_SUFFIXES e) harmony
        | none => "")

/-- `MorphologicalProcessor.inflect_verb` (morphology.py lines 200-230). -/
def inflect_verb (root : String) (t : Tense := Tense.present)
    (a : Aspect := Aspect.imperfective)
    (ev : Option Evidentiality := none) : InflectedWord :=
  let harmony := get_vowel_harmony root
  let gloss_parts := [root, a.value, t.value]
    ++ (match ev with | some e => [e.value] | none => [])
  { root := root
    morphemes := { aspect := some a, evidentiality := ev, tense := some t }
    surface_form := verbSurface root t a ev harmony
    gloss := String.intercalate "-" gloss_parts
    pos := "verb" }

/-- `MorphologicalProcessor.derive_word` (morphology.py lines 232-260).
An unknown derivation type raises `ValueError`; otherwise the harmony-selected
suffix is appended.  Note there is no check on `root`. -/
def derive_word (root : String) (derivation_type : String)
    (pos : String := "noun") : Except PyErr InflectedWord :=
  match DERIVATIONAL_SUFFIXES derivation_type with
  | none => .error (.valueError ("Unknown derivation type: " ++ derivation_type))
  | some pair =>
    let harmony := get_vowel_harmony root
    let suffix := selHarmony pair harmony
    let new_pos :=
      if derivation_type = "agent" ∨ derivation_type = "instrument" then "noun"
      else if derivation_type = "verbal_noun" then "noun"
      else if derivation_type = "abstract" then "noun"
      else pos
    .ok { root := root
          morphemes := { derivations := [derivation_type] }
          surface_form := root ++ suffix
          gloss := root ++ "-" ++ derivation_type
          pos := new_pos }

/-! ## `zyntalic/phonology.py` -/

/-- The keys of `HANGUL_CONSONANTS`, in dict insertion order. -/
def hangulConsonantKeys : List String :=
  ["ᄀ", "ᄁ", "ᄃ", "ᄄ", "ᄇ", "ᄈ", "ᄉ", "ᄊ", "ᄒ", "ᄂ", "ᄆ", "ᄋ", "ᄅ",
   "ᄌ", "ᄍ", "ᄎ", "ᄏ", "ᄐ", "ᄑ"]

/-- The keys of `LATIN_CONSONANTS`, in dict insertion order. -/
def latinConsonantKeys : List String :=
  ["p", "b", "t", "d", "k", "g", "f", "v", "s", "z", "ś", "ź", "sz", "ż",
   "h", "ch", "m", "n", "ń", "l", "ł", "r", "c", "dz", "ć", "dź", "cz", "dż"]

/-- The keys of `HANGUL_VOWELS`, in dict insertion order. -/
def hangulVowelKeys : List String :=
  ["ᅡ", "ᅢ", "ᅣ", "ᅤ", "ᅥ", "ᅦ", "ᅧ", "ᅨ", "ᅩ", "ᅪ", "ᅫ", "ᅬ", "ᅭ",
   "ᅮ", "ᅯ", "ᅰ", "ᅱ", "ᅲ", "ᅳ", "ᅴ", "ᅵ"]

/-- The keys of `LATIN_VOWELS`, in dict insertion order. -/
def latinVowelKeys : List String :=
  ["a", "ą", "e", "ę", "i", "o", "ó", "u", "y"]

/-- The keys of `HANGUL_CODAS`, in dict insertion order (the last entry is the
empty string, which `generate_phonological_word` filters out). -/
def hangulCodaKeys : List String :=
  ["ᆨ", "ᆩ", "ᆪ", "ᆫ", "ᆬ", "ᆭ", "ᆮ", "ᆯ", "ᆰ", "ᆱ", "ᆲ", "ᆳ", "ᆴ",
   "ᆵ", "ᆶ", "ᆷ", "ᆸ", "ᆹ", "ᆺ", "ᆻ", "ᆼ", "ᆽ", "ᆾ", "ᆿ", "ᇀ", "ᇁ",
   "ᇂ", ""]

/-- `self.valid_onsets` (phonology.py lines 175-184), each tuple as a list. -/
def valid_onsets : List (List String) :=
  [["s", "p"], ["s", "t"], ["s", "k"], ["ś", "p"], ["ś", "t"],
   ["sz", "p"], ["sz", "t"], ["sz", "k"], ["sz", "ć"],
   ["p", "r"], ["b", "r"], ["t", "r"], ["d", "r"], ["k", "r"], ["g", "r"],
   ["p", "ł"], ["b", "ł"], ["k", "ł"], ["g", "ł"],
   ["f", "r"], ["ch", "r"],
   ["ᄀ", "ᄅ"], ["ᄇ", "ᄅ"], ["ᄃ", "ᄅ"]]

/-- `self.valid_codas` (phonology.py lines 186-193), each tuple as a list. -/
def valid_codas : List (List String) :=
  [["n"], ["m"], ["ŋ"], ["l"], ["r"], ["t"], ["k"], ["p"],
   ["n", "t"], ["m", "p"], ["ŋ", "k"], ["l", "t"],
   ["ᆫ"], ["ᆷ"], ["ᆯ"], ["ᆨ"], ["ᆮ"], ["ᆸ"]]

/-- `@dataclass Syllable` (phonology.py lines 105-112). -/
structure Syllable where
  onset : List String
  nucleus : String
  coda : List String
  stress : Bool := false
  tone : Option String := none
  deriving DecidableEq

/-- `PhonologicalProcessor.is_valid_syllable` (phonology.py lines 257-278):
an onset of more than one consonant must be a listed cluster; a coda of more
than one consonant must be a listed cluster (single codas always pass); the
nucleus must be non-empty. -/
def is_valid_syllable (s : Syllable) : Bool :=
  (s.onset.length ≤ 1 || valid_onsets.contains s.onset) &&
  (s.coda.length == 0 || s.coda.length == 1 || valid_codas.contains s.coda) &&
  (s.nucleus != "")

/-- `rng.choice(l)` for non-empty `l`: some element of `l`, here picked by an
oracle-supplied index reduced mod the length.  (Total: returns `""` on `[]`,
a case the call sites never reach.) -/
def listChoice (l : List String) (k : Nat) : String := l.getD (k % l.length) ""

/-- The pseudo-random draws `generate_phonological_word` makes for syllable
`i`, abstracted to an arbitrary decision oracle (the source derives them from
a `random.Random` stream seeded by the semantic seed; universally quantifying
over the oracle covers every seed). -/
structure GenOracle where
  useHangul : Nat → Bool   -- `rng.random() < 0.7`
  wantOnset : Nat → Bool   -- `rng.random() < 0.8`
  onsetIdx : Nat → Nat     -- `rng.choice(consonants)`
  wantCluster : Nat → Bool -- `rng.random() < 0.2`
  clusterIdx : Nat → Nat   -- `rng.choice(consonants)` for the second consonant
  nucleusIdx : Nat → Nat   -- `rng.choice(vowels)`
  wantCoda : Nat → Bool    -- `rng.random() < 0.4`
  codaIdx : Nat → Nat      -- `rng.choice(codas)`

/-- The cluster-extension step of the onset construction (lines 383-388):
a second consonant is drawn and kept only when the resulting pair is a listed
valid onset. -/
def mkOnsetExtend (consonants : List String) (wantCluster : Bool)
    (clusterIdx : Nat) (onset1 : List String) : List String :=
  if wantCluster && onset1.length == 1 then
    if valid_onsets.contains (onset1 ++ [listChoice consonants clusterIdx]) then
      onset1 ++ [listChoice consonants clusterIdx]
    else onset1
  else onset1

/-- The onset construction inside `generate_phonological_word` (lines 372-388):
maybe one consonant from the script's inventory, then the cluster-extension
step. -/
def mkOnset (consonants : List String) (want wantCluster : Bool)
    (idx clusterIdx : Nat) : List String :=
  mkOnsetExtend consonants wantCluster clusterIdx
    (if want && !consonants.isEmpty then [listChoice consonants idx] else [])

/-- The nucleus construction (lines 390-396): a vowel from the script's
inventory (the `'a'` fallback is dead code, both inventories being non-empty). -/
def mkNucleus (vowels : List String) (idx : Nat) : String :=
  if vowels.isEmpty then "a" else listChoice vowels idx

/-- The coda inventory of the chosen script (lines 401-405): the Hangul coda
keys with the empty string removed, or the fixed Latin list. -/
def codaInventory (useHangul : Bool) : List String :=
  if useHangul then hangulCodaKeys.filter (fun c => c ≠ "")
  else ["n", "m", "l", "r", "t", "k", "p"]

/-- The coda construction (lines 398-408): at most one consonant, drawn from
the script's coda inventory. -/
def mkCoda (useHangul want : Bool) (idx : Nat) : List String :=
  if want then
    if (codaInventory useHangul).isEmpty then []
    else [listChoice (codaInventory useHangul) idx]
  else []

/-- One loop iteration of `generate_phonological_word`: the candidate syllable
built for position `i`. -/
def mkSyllable (o : GenOracle) (i : Nat) : Syllable :=
  let useH := o.useHangul i
  let consonants := if useH then hangulConsonantKeys else latinConsonantKeys
  let vowels := if useH then hangulVowelKeys else latinVowelKeys
  { onset := mkOnset consonants (o.wantOnset i) (o.wantCluster i)
      (o.onsetIdx i) (o.clusterIdx i)
    nucleus := mkNucleus vowels (o.nucleusIdx i)
    coda := mkCoda useH (o.wantCoda i) (o.codaIdx i) }

/-- The syllable list `generate_phonological_word` assembles before sound
changes: each candidate is kept only if `is_valid_syllable` accepts it. -/
def generateSyllables (o : GenOracle) (syllable_count : Nat) : List Syllable :=
  ((List.range syllable_count).map (mkSyllable o)).filter is_valid_syllable

/-- Flattening a syllable to text: `"".join(onset) + nucleus + "".join(coda)`. -/
def syllableText (s : Syllable) : String :=
  String.join s.onset ++ s.nucleus ++ String.join s.coda

/-! ### Sound changes (`apply_sound_changes` and its six rules)

Each Python rule is a `re.sub` over fixed-length patterns of character
classes, or a plain `str.replace`.  `re.sub` scans left to right, replaces
non-overlapping matches and does not rescan replacement text; for a
fixed-length pattern this is the structural recursion below. -/

/-- One `re.sub(p₁p₂ → r·p₂)` pass over adjacent character pairs (the shape of
all four voicing/nasal rules). -/
def subAdj (p₁ p₂ : Char → Bool) (r : Char) : List Char → List Char
  | a :: b :: rest =>
    if p₁ a && p₂ b then r :: b :: subAdj p₁ p₂ r rest
    else a :: subAdj p₁ p₂ r (b :: rest)
  | l => l

/-- The class `[bdg]`. -/
def isBdg (c : Char) : Bool := c == 'b' || c == 'd' || c == 'g'

/-- The class `[ptk]`. -/
def isPtk (c : Char) : Bool := c == 'p' || c == 't' || c == 'k'

/-- `_voice_assimilation` (lines 296-307): first `([bdg])([ptk]) → p\2`, then
`([ptk])([bdg]) → b\2`, each as its own full pass. -/
def voice_assimilation (l : List Char) : List Char :=
  subAdj isPtk isBdg 'b' (subAdj isBdg isPtk 'p' l)

/-- `_nasal_assimilation` (lines 309-319): first `n([pk]) → m\1`, then
`n([kg]) → ŋ\1`. -/
def nasal_assimilation (l : List Char) : List Char :=
  subAdj (· == 'n') (fun c => c == 'k' || c == 'g') 'ŋ'
    (subAdj (· == 'n') (fun c => c == 'p' || c == 'k') 'm' l)

/-- `'sz' in word`: is `['s','z']` an adjacent pair? -/
def containsSZ : List Char → Bool
  | 's' :: 'z' :: _ => true
  | _ :: rest => containsSZ rest
  | [] => false

/-- `word.replace('s', 'sz')`. -/
def replaceS : List Char → List Char
  | [] => []
  | c :: rest => if c == 's' then 's' :: 'z' :: replaceS rest else c :: replaceS rest

/-- `word.replace('z', 'ż')`. -/
def replaceZ (l : List Char) : List Char :=
  l.map fun c => if c == 'z' then 'ż' else c

/-- `_sibilant_harmony` (lines 321-327): when the word contains `sz` or `ż`,
every `s` becomes `sz` and then every `z` becomes `ż`. -/
def sibilant_harmony (l : List Char) : List Char :=
  if containsSZ l || l.contains 'ż' then replaceZ (replaceS l) else l

/-- The class `[bcdfghjklmnpqrstvwxyz]` of `_vowel_deletion`. -/
def isEnCons (c : Char) : Bool :=
  c ∈ ['b', 'c', 'd', 'f', 'g', 'h', 'j', 'k', 'l', 'm', 'n', 'p', 'q',
       'r', 's', 't', 'v', 'w', 'x', 'y', 'z']

/-- The class `[aeiou]`. -/
def isAeiou (c : Char) : Bool := c ∈ ['a', 'e', 'i', 'o', 'u']

/-- `_vowel_deletion` (lines 329-333):
`([bcdfghjklmnpqrstvwxyz])[aeiou]\1 → \1\1` — delete a vowel flanked by two
copies of the same consonant. -/
def vowel_deletion : List Char → List Char
  | a :: v :: b :: rest =>
    if isEnCons a && isAeiou v && b == a then a :: a :: vowel_deletion rest
    else a :: vowel_deletion (v :: b :: rest)
  | l => l

/-- `_consonant_cluster_simplification` (lines 335-339):
`([ptk])([sz])([ptk]) → \1\3`. -/
def consonant_cluster_simplification : List Char → List Char
  | a :: s :: b :: rest =>
    if isPtk a && (s == 's' || s == 'z') && isPtk b then
      a :: b :: consonant_cluster_simplification rest
    else a :: consonant_cluster_simplification (s :: b :: rest)
  | l => l

/-- `_epenthesis` (lines 341-345): `([sz])([ptk])([^aeiouąę]) → \1e\2\3`. -/
def epenthesis : List Char → List Char
  | s :: p :: c :: rest =>
    if (s == 's' || s == 'z') && isPtk p
        && !(c ∈ ['a', 'e', 'i', 'o', 'u', 'ą', 'ę']) then
      s :: 'e' :: p :: c :: epenthesis rest
    else s :: epenthesis (p :: c :: rest)
  | l => l

/-- `PhonologicalProcessor.apply_sound_changes` (lines 280-294): the six rules
in their fixed source order. -/
def apply_sound_changes (word : String) : String :=
  String.mk
    (epenthesis
      (consonant_cluster_simplification
        (vowel_deletion
          (sibilant_harmony
            (nasal_assimilation
              (voice_assimilation word.toList))))))

/-- `PhonologicalProcessor.generate_phonological_word` (lines 363-423) with
the RNG abstracted to an oracle: assemble the valid syllables, then apply the
sound changes. -/
def generate_phonological_word (o : GenOracle) (syllable_count : Nat) : String :=
  apply_sound_changes
    (String.join ((generateSyllables o syllable_count).map syllableText))

/-! ## `zyntalic/syntax.py` -/

/-- `_CONTEXT_MARKERS` (syntax.py lines 23-26). -/
def CONTEXT_MARKERS : List String :=
  ["in", "on", "at", "with", "from", "to", "by", "because", "when", "while",
   "after", "before", "if", "as", "during", "over", "under", "into", "onto",
   "between", "within", "without", "against", "through"]

/-- `_COMMON_VERBS` (syntax.py lines 28-45). -/
def COMMON_VERBS : List String :=
  ["am", "is", "are", "was", "were", "be", "been", "being",
   "have", "has", "had", "do", "does", "did",
   "say", "says", "said", "make", "makes", "made", "go", "goes", "went",
   "see", "sees", "saw", "know", "knows", "knew", "think", "thinks", "thought",
   "take", "takes", "took", "come", "comes", "came", "want", "wants", "wanted",
   "use", "uses", "used", "find", "finds", "found", "give", "gives", "gave",
   "tell", "tells", "told", "work", "works", "worked", "call", "calls", "called",
   "try", "tries", "tried", "ask", "asks", "asked", "need", "needs", "needed",
   "feel", "feels", "felt", "become", "becomes", "became", "leave", "leaves", "left",
   "put", "puts", "keep", "keeps", "kept", "let", "lets",
   "begin", "begins", "began", "seem", "seems", "help", "helps", "helped",
   "talk", "talks", "talked", "turn", "turns", "turned", "start", "starts", "started",
   "show", "shows", "showed", "play", "plays", "played", "move", "moves", "moved",
   "live", "lives", "lived", "believe", "believes", "believed",
   "bring", "brings", "brought", "write", "writes", "wrote",
   "sit", "sits", "sat", "stand", "stands", "stood"]

/-- `@dataclass ParsedSentence` (syntax.py lines 47-55). -/
structure ParsedSentence where
  subject : String
  verb : String
  obj : String
  context : String := ""
  tense : String := "present"
  subj_plural : Bool := false
  obj_plural : Bool := false
  deriving DecidableEq

/-- A character kept inside a token by `_tokenize`: alphanumeric (modelled for
ASCII, as in the inputs the parser sees), apostrophes, or a hyphen. -/
def tokenChar (c : Char) : Bool :=
  c.isAlpha || c.isDigit || c == '\'' || c == '’' || c == '-'

/-- The buffer loop of `_tokenize`, with the current (reversed) buffer as
accumulator. -/
def tokenizeGo : List Char → List Char → List String
  | [], buff => if buff.isEmpty then [] else [String.mk buff.reverse]
  | c :: rest, buff =>
    if tokenChar c then tokenizeGo rest (c :: buff)
    else if buff.isEmpty then tokenizeGo rest []
    else String.mk buff.reverse :: tokenizeGo rest []

/-- `_tokenize` (syntax.py lines 58-71): splits `text.strip()` into maximal
runs of token characters. -/
def tokenize (text : String) : List String :=
  tokenizeGo (pyStrip text).toList []

/-- `_guess_plural` (syntax.py lines 74-79). -/
def guess_plural (phrase : String) : Bool :=
  match (pySplitWs (pyStrip phrase)).getLast? with
  | none => false
  | some w =>
    let last := pyLower w
    pyEndsWith last "s"
      && !(pyEndsWith last "ss" || pyEndsWith last "us" || pyEndsWith last "is")

/-- The per-token test of step 2 of `_find_verb` (lines 98-106): a known verb,
a plausible `-ed`/`-ing` form, or a naive third-person `-s` form. -/
def looksLikeVerb (t : String) : Bool :=
  COMMON_VERBS.contains t
  || ((pyEndsWith t "ed" || pyEndsWith t "ing") && t.length > 3)
  || (pyEndsWith t "s" && t.length > 3
      && COMMON_VERBS.contains (String.mk t.toList.dropLast))

/-- `_find_verb` (syntax.py lines 92-109): prefer the token after `will`,
else the first verb-looking token, else the middle token. -/
def find_verb (tokens : List String) : Nat :=
  let low := tokens.map pyLower
  let willCase : Option Nat :=
    match low.findIdx? (· == "will") with
    | some i => if i + 1 < tokens.length then some (i + 1) else none
    | none => none
  match willCase with
  | some r => r
  | none =>
    match low.findIdx? looksLikeVerb with
    | some i => i
    | none => min (tokens.length - 1) (tokens.length / 2)

/-- `_guess_tense` (syntax.py lines 82-89). -/
def guess_tense (tokens : List String) (verb_idx : Nat) : String :=
  let low := tokens.map pyLower
  if (low.take (verb_idx + 1)).contains "will" then "future"
  else
    let v := low.getD verb_idx ""
    if pyEndsWith v "ed" || v ∈ ["was", "were", "had", "did"] then "past"
    else "present"

/-- The object/context split of `parse_english` (lines 127-136): tokens after
the verb go to the object until the first context marker; from the first
marker on (marker included) they go to the context. -/
def splitObjCtx : List String → Bool → List String × List String
  | [], _ => ([], [])
  | t :: ts, seen =>
    let seen' := seen || CONTEXT_MARKERS.contains (pyLower t)
    let (os, cs) := splitObjCtx ts seen'
    if seen' then (os, t :: cs) else (t :: os, cs)

/-- `" ".join(ts)`. -/
def joinSpace (ts : List String) : String := String.intercalate " " ts

/-- `parse_english` (syntax.py lines 112-150). -/
def parse_english (text : String) : ParsedSentence :=
  let tokens := tokenize text
  if tokens = [] then
    { subject := "", verb := "", obj := "", context := "" }
  else
    let vidx := find_verb tokens
    let tense := guess_tense tokens vidx
    let subj_tokens := tokens.take vidx
    let verb_token := tokens.getD vidx ""
    let rest := tokens.drop (vidx + 1)
    let (obj_tokens, ctx_tokens) := splitObjCtx rest false
    let subject := pyStrip (joinSpace subj_tokens)
    let obj := pyStrip (joinSpace obj_tokens)
    let context := pyStrip (joinSpace ctx_tokens)
    { subject := subject
      verb := verb_token
      obj := obj
      context := context
      tense := tense
      subj_plural := guess_plural subject
      obj_plural := guess_plural obj }

/-! ## `zyntalic/embeddings.py` and `zyntalic/utils/rng.py` -/

/-- The UTF-8 bytes of a string (`text.encode("utf-8")`). -/
def utf8Bytes (s : String) : List Nat := s.toUTF8.toList.map UInt8.toNat

/-- The 8-byte `blake2b` digest read as a big-endian integer (used both by
`utils/rng.stable_seed` and by `embeddings.embed_text`).  The digest algorithm
itself is abstracted to a concrete deterministic stand-in; the property the
development relies on — the seed is a pure function of the input bytes — is
exactly what the source guarantees. -/
def blake2b8 (data : List Nat) : Nat :=
  data.foldl (fun h b => (h * 1099511628211 + b) % 2 ^ 64) 14695981039346656037

/-- `utils/rng.stable_seed`. -/
def stable_seed (seed : String) : Nat := blake2b8 (utf8Bytes seed)

/-- The `i`-th draw of `random.Random(seed).random()`.  The Mersenne-Twister
stream is abstracted to a concrete deterministic stand-in, and each float in
`[0, 1)` is represented by the integer state that produces it; as in the
source, the stream is a pure function of the seed. -/
def randStream (seed : Nat) (i : Nat) : Nat :=
  (seed * 6364136223846793005 + (i + 1) * 1442695040888963407) % 2 ^ 64

/-- The hash-seeded fallback branch of `embed_text` (embeddings.py lines
57-60): seed a fresh generator from the text's digest and draw `dim` values. -/
def hashEmbed (text : String) (dim : Nat) : List Nat :=
  (List.range dim).map (randStream (blake2b8 (utf8Bytes text)))

/-- The state of the optional learned encoder: `none` models an absent
`sentence-transformers` backend (`_MODEL is None`); `some enc` a loaded model
whose `encode` call returns `enc t` (with `none` for a raised exception). -/
def EmbedBackend : Type := Option (String → Option (List Nat))

/-- `embed_text` (embeddings.py lines 34-60).  `world` stands for the ambient
mutable process state a call could observe; the source reads none (its seed
comes only from the text bytes), so the definition does not consult it.
When the learned encoder is present its vector is trimmed or deterministically
padded to `dim`; when it is absent or raises, the hash-seeded fallback runs. -/
def embed_text (backend : EmbedBackend) (world : Nat) (text : String)
    (dim : Nat := 300) : List Nat :=
  match backend with
  | some enc =>
    match enc text with
    | some v =>
      if dim ≤ v.length then v.take dim
      else v ++ (List.range (dim - v.length)).map
        (randStream (blake2b8 (utf8Bytes text)))
    | none => hashEmbed text dim
  | none => hashEmbed text dim

/-! ## `zyntalic/translator.py` (and the spec-modelled `core`) -/

/-- One translation record (`TranslationRecord` of the spec; the dict built by
`translate_sentence`).  The Python key `"lemma"` is the field `lemmaStr`
(`lemma` is a Lean keyword); `anchors` is the ordered (anchor-id, weight)
list. -/
structure TranslationRecord where
  source : String
  target : String
  lemmaStr : String
  anchors : List (String × ℚ)
  engine : String
  deriving DecidableEq

/-- The result of `core.generate_entry`: the rendered sentence (with its
context tail) and the ranked anchor weights. -/
structure GenEntry where
  sentence : String
  anchors : List (String × ℚ)
  deriving DecidableEq

/-- Modelled from the spec: `core.generate_entry` — the module `zyntalic/core.py`
is imported by `translator.py` but is not part of this source tree.  Per spec
§4.1/§4.6 it is a deterministic, total function of its arguments (key text,
mirror rate) that renders a sentence with a delimiter-bounded context tail and
the ranked anchors.  The concrete strings below are placeholders; no theorem
depends on their value, only on `generate_entry` being a pure total function. -/
def generate_entry (key : String) (mirror_rate : ℚ) : GenEntry :=
  { sentence := "zyn-" ++ key ++ " ⟦tail=zyn;lemma=" ++ key ++ "⟧"
    anchors := [("Homer_Iliad", (1 : ℚ) - mirror_rate * 0)] }

/-- A character the lemma cleaner keeps: the complement of the class
`[^A-Za-z0-9'\- ]` in `_clean_lemma`. -/
def lemmaChar (c : Char) : Bool :=
  c.isAlpha || c.isDigit || c == '\'' || c == '-' || c == ' '

/-- `re.sub(r"[^A-Za-z0-9'\- ]+", " ", ·)`: each maximal run of disallowed
characters becomes a single space.  The boolean argument records whether the
previous character was part of such a run. -/
def lemmaRunsGo : List Char → Bool → List Char
  | [], _ => []
  | c :: rest, inRun =>
    if lemmaChar c then c :: lemmaRunsGo rest false
    else if inRun then lemmaRunsGo rest true
    else ' ' :: lemmaRunsGo rest true

/-- `re.sub(r"\s+", " ", ·)`: collapse whitespace runs to a single space. -/
def wsCollapseGo : List Char → Bool → List Char
  | [], _ => []
  | c :: rest, inWs =>
    if pyWs c then
      if inWs then wsCollapseGo rest true else ' ' :: wsCollapseGo rest true
    else c :: wsCollapseGo rest false

/-- `_clean_lemma` (translator.py lines 21-27): lower-case, replace disallowed
runs by spaces, collapse whitespace, strip, and keep the first word (or `""`). -/
def clean_lemma (text : String) : String :=
  let t := String.mk (lemmaRunsGo (pyLower (pyStrip text)).toList false)
  let t := pyStrip (String.mk (wsCollapseGo t.toList false))
  if t = "" then "" else (pySplitWs t).headD ""

/-- The availability and behaviour of the alternate engines, fixed for a run:
for `chiasmus` and `transformer`, `none` models a missing module or a call
that raises (in this source tree `zyntalic/chiasmus.py` does not exist, and
`transformers.py` needs the optional `sentence-transformers` dependency);
`testSuiteOk` says whether the `test_suite` import/constructor path succeeds. -/
structure EngineEnv where
  chiasmusAttempt : String → Option String
  transformerAttempt : String → ℚ → Option String
  testSuiteOk : Bool

/-- The environment of this source tree as shipped: no alternate engine is
available. -/
def noEngines : EngineEnv :=
  { chiasmusAttempt := fun _ => none
    transformerAttempt := fun _ _ => none
    testSuiteOk := false }

/-- `translate_sentence` (translator.py lines 30-106).  `world` again stands
for ambient process state, which the source never reads.  Each alternate
engine is tried inside `try/except`; any failure falls back to the `core`
engine, whose record reports `engine = "core"`.  (The optional `W` pass-through
argument, forwarded untouched to `core.generate_entry`, is omitted.) -/
def translate_sentence (env : EngineEnv) (world : Nat) (text : String)
    (mirror_rate : ℚ := 8 / 10) (engine : String := "core") : TranslationRecord :=
  let src := pyStrip text
  let lem := clean_lemma src
  let coreRecord : TranslationRecord :=
    let entry := generate_entry (if lem = "" then src else lem) mirror_rate
    { source := src, target := entry.sentence, lemmaStr := lem
      anchors := entry.anchors, engine := "core" }
  if engine = "test_suite" then
    if env.testSuiteOk then
      let entry := generate_entry (if lem = "" then src else lem) mirror_rate
      { source := src, target := entry.sentence, lemmaStr := lem
        anchors := entry.anchors, engine := "test_suite" }
    else coreRecord
  else if engine = "transformer" then
    match env.transformerAttempt src mirror_rate with
    | some tgt =>
      { source := src, target := tgt, lemmaStr := lem, anchors := []
        engine := "transformer" }
    | none => coreRecord
  else if engine = "chiasmus" then
    match env.chiasmusAttempt src with
    | some tgt =>
      { source := src, target := tgt, lemmaStr := lem, anchors := []
        engine := "chiasmus" }
    | none => coreRecord
  else coreRecord

/-- Is `c` one of the sentence-terminal characters `.`, `!`, `?`. -/
def isTermPunct (c : Char) : Bool := c == '.' || c == '!' || c == '?'

/-- Does the list start with a whitespace character? -/
def headIsWs : List Char → Bool
  | c :: _ => pyWs c
  | [] => false

/-- `_SENT_SPLIT.split`, the split on `(?<=[.!?])\s+`: a maximal whitespace
run immediately preceded by terminal punctuation separates two parts.  The
boolean argument is true while consuming such a run (`acc` is then empty). -/
def sentSplitGo : List Char → List Char → Bool → List (List Char)
  | [], acc, _ => [acc.reverse]
  | c :: rest, acc, inSep =>
    if inSep && pyWs c then sentSplitGo rest acc true
    else if isTermPunct c && headIsWs rest then
      (c :: acc).reverse :: sentSplitGo rest [] true
    else sentSplitGo rest (c :: acc) false

/-- `_SENT_SPLIT.split(text)` (translator.py line 19 / line 122). -/
def sentSplit (text : String) : List String :=
  (sentSplitGo text.toList [] false).map String.mk

/-- The sentence parts `translate_text` actually translates: the regex split
of the stripped text, keeping only parts that are non-empty after stripping
(`if p.strip()`), and nothing at all for empty input. -/
def nonEmptySentenceParts (text : String) : List String :=
  let t := pyStrip text
  if t = "" then [] else (sentSplit t).filter (fun p => pyStrip p ≠ "")

/-- `translate_text` (translator.py lines 109-123) for a string argument. -/
def translate_text (env : EngineEnv) (world : Nat) (text : String)
    (mirror_rate : ℚ := 8 / 10) (engine : String := "core") :
    List TranslationRecord :=
  (nonEmptySentenceParts text).map
    (fun p => translate_sentence env world p mirror_rate engine)

/-- A Python value passed where a string is expected, for the dynamic-typing
behaviour of the entry point. -/
inductive PyVal where
  | str (s : String)
  | int (n : Int)
  | none
  deriving DecidableEq

/-- `translate_text` as actually callable from Python, on an arbitrary value:
`(text or "").strip()` keeps a truthy value as is and replaces a falsy one
(`None`, `0`, `""`) by `""`; `.strip()` then raises `AttributeError` on a
non-string.  There is no validation of `mirror_rate` anywhere on this path. -/
def translate_text_dyn (env : EngineEnv) (world : Nat) (text : PyVal)
    (mirror_rate : ℚ := 8 / 10) (engine : String := "core") :
    Except PyErr (List TranslationRecord) :=
  match text with
  | .str s => .ok (translate_text env world s mirror_rate engine)
  | .none => .ok (translate_text env world "" mirror_rate engine)
  | .int n =>
    if n = 0 then .ok (translate_text env world "" mirror_rate engine)
    else .error .attributeError

/-! ## Definitions taken from the specification's words

These two definitions are *not* translations of the source: they formalise
what the spec sentence behind a claim literally describes, so that the claim
can be compared against the code's behaviour. -/

/-- Splitting a character list at every `.`, `!`, `?` (the split the spec's
"number of non-empty sentences in T after splitting on `.`, `!`, `?`"
describes — on the punctuation characters themselves). -/
def specSplitOnPunct : List Char → List (List Char)
  | [] => [[]]
  | c :: rest =>
    if isTermPunct c then [] :: specSplitOnPunct rest
    else
      match specSplitOnPunct rest with
      | p :: ps => (c :: p) :: ps
      | [] => [[c]]

/-- The spec's sentence count: split on the terminal punctuation characters
and count the pieces that are non-empty (contain a non-whitespace character). -/
def specSentenceCount (text : String) : Nat :=
  (((specSplitOnPunct text.toList).map String.mk).filter
    (fun p => pyStrip p ≠ "")).length

/-- The subject phrase as the spec describes it: the tokens strictly before
the verb index, with tokens matching the closed context-marker set excluded. -/
def specSubjectPhrase (text : String) : String :=
  let tokens := tokenize text
  pyStrip (joinSpace ((tokens.take (find_verb tokens)).filter
    (fun t => !CONTEXT_MARKERS.contains (pyLower t))))

/-! ## C5 — order and idempotence of the sound-change pass -/

/-- C5, counterexample.  `apply_sound_changes` is *not* idempotent: on the
word `"sz"` the sibilant-harmony rule rewrites `s ↦ sz` and `z ↦ ż`, producing
`"sżż"`, whose `ż` re-triggers the rule on the next pass (`"sżżż"`), so a
second application changes the word again. -/
theorem sound_changes_not_idempotent_cex :
    apply_sound_changes (apply_sound_changes "sz") ≠ apply_sound_changes "sz" := by
  decide

/-- C5 (amended): the sound-change pass applies its six rules in the fixed
source order (voicing assimilation, nasal place assimilation, sibilant
harmony, vowel deletion, consonant-cluster simplification, epenthesis), and
re-application is the identity exactly on those outputs that no rule changes
any more — but this is not the case for every word (see the counterexample). -/
theorem sound_changes_fixed_order :
    (∀ w : String, apply_sound_changes w =
      String.mk (epenthesis (consonant_cluster_simplification (vowel_deletion
        (sibilant_harmony (nasal_assimilation
          (voice_assimilation w.toList))))))) ∧
    (∀ w : String,
      voice_assimilation (apply_sound_changes w).toList
          = (apply_sound_changes w).toList →
      nasal_assimilation (apply_sound_changes w).toList
          = (apply_sound_changes w).toList →
      sibilant_harmony (apply_sound_changes w).toList
          = (apply_sound_changes w).toList →
      vowel_deletion (apply_sound_changes w).toList
          = (apply_sound_changes w).toList →
      consonant_cluster_simplification (apply_sound_changes w).toList
          = (apply_sound_changes w).toList →
      epenthesis (apply_sound_changes w).toList
          = (apply_sound_changes w).toList →
      apply_sound_changes (apply_sound_changes w) = apply_sound_changes w) := by
  constructor
  · intro w; rfl
  · intro w h₁ h₂ h₃ h₄ h₅ h₆
    show String.mk (epenthesis (consonant_cluster_simplification (vowel_deletion
      (sibilant_harmony (nasal_assimilation
        (voice_assimilation (apply_sound_changes w).toList)))))) =
      apply_sound_changes w
    rw [h₁, h₂, h₃, h₄, h₅, h₆]
    rfl

/-- C5, witness: on `"ab"` no rule applies after the first pass, and the
second application indeed leaves the word unchanged. -/
theorem sound_changes_fixed_order_witness :
    apply_sound_changes (apply_sound_changes "ab") = apply_sound_changes "ab" :=
  sound_changes_fixed_order.2 "ab" (by decide) (by decide) (by decide)
    (by decide) (by decide) (by decide)

/-! ## C6 — the subject phrase of `parse_english` -/

/-- C6, counterexample.  The parser does *not* exclude context markers from
the subject phrase: in `"In the river he sees fish."` the verb is `sees`
(index 4) and the subject is all four preceding tokens including the marker
`In`, whereas the claim's subject (markers excluded) would be
`"the river he"`. -/
theorem subject_keeps_context_markers_cex :
    (parse_english "In the river he sees fish.").subject = "In the river he" ∧
    specSubjectPhrase "In the river he sees fish." = "the river he" ∧
    "in" ∈ CONTEXT_MARKERS := by
  decide

/-- C6 (amended): the subject phrase of `parse_english` consists of exactly
*all* tokens strictly before the chosen verb index, joined by single spaces;
no context-marker filtering is applied to it. -/
theorem subject_is_all_pre_verb_tokens :
    ∀ text : String, (parse_english text).subject =
      pyStrip (joinSpace ((tokenize text).take (find_verb (tokenize text)))) := by
  intro text
  unfold parse_english
  by_cases h : tokenize text = []
  · simp [h, joinSpace]
    rfl
  · simp [h]

/-! ## C7 — error reporting in derivation and inflection -/

/-- C7, counterexample.  A malformed (empty) root is *not* reported as a
usage error: both `derive_word` and `inflect_noun` accept `""` and return a
surface form consisting of the (back-harmony) suffix alone. -/
theorem empty_root_not_rejected_cex :
    derive_word "" "agent" = Except.ok
      { root := ""
        morphemes := { derivations := ["agent"] }
        surface_form := "-ász"
        gloss := "-agent"
        pos := "noun" } ∧
    (inflect_noun "" Case.accusative).surface_form = "-oł" := by
  decide

/-- C7 (amended): a derivation type missing from the fixed suffix table
raises `ValueError` immediately (not retried, not substituted); but an empty
root is not checked: for every known derivation type, deriving from `""`
succeeds and returns just the back-harmony suffix as surface form, and noun
inflection of `""` likewise returns the bare suffixes. -/
theorem derivation_error_reporting :
    (∀ (root dt pos : String), DERIVATIONAL_SUFFIXES dt = none →
      derive_word root dt pos =
        .error (.valueError ("Unknown derivation type: " ++ dt))) ∧
    (∀ (dt pos : String) (p : HarmonyPair), DERIVATIONAL_SUFFIXES dt = some p →
      ∃ w, derive_word "" dt pos = Except.ok w ∧ w.surface_form = p.back) ∧
    (∀ (c : Case) (n : Number),
      (inflect_noun "" c n).surface_form = nounSurface "" c n "back") := by
  refine ⟨?_, ?_, ?_⟩
  · intro root dt pos h
    unfold derive_word
    rw [h]
  · intro dt pos p h
    refine ⟨_, by unfold derive_word; rw [h], ?_⟩
    show (""  ++ selHarmony p (get_vowel_harmony "")) = p.back
    have hb : get_vowel_harmony "" = "back" := rfl
    rw [hb]
    show ("" ++ p.back) = p.back
    exact String.empty_append p.back
  · intro c n
    show nounSurface "" c n (get_vowel_harmony "") = nounSurface "" c n "back"
    rfl

/-- C7, witness: the unknown type `"bogus"` is rejected with the exact
`ValueError` message, and the known type `"agent"` derives from the empty
root without error. -/
theorem derivation_error_reporting_witness :
    derive_word "x" "bogus" =
      Except.error (.valueError "Unknown derivation type: bogus") ∧
    ∃ w, derive_word "" "agent" "noun" = Except.ok w ∧ w.surface_form = "-ász" :=
  ⟨derivation_error_reporting.1 "x" "bogus" "noun" (by decide),
   derivation_error_reporting.2.1 "agent" "noun" ⟨"-ész", "-ász"⟩ (by decide)⟩

/-! ## C1 — determinism of `translate_text` and the fallback embedding -/

/-- C1: for a fixed engine environment, two independent calls to
`translate_text` (modelled by distinct ambient `world` states) return
identical record lists; and for any embedding backend held fixed — in
particular the hash-seeded fallback (`backend = none`) — two independent
calls to `embed_text` on the same text return the same vector.  The
definitions consult no ambient state: every seed is derived from the input
text alone. -/
theorem translate_and_embed_deterministic :
    (∀ (env : EngineEnv) (w₁ w₂ : Nat) (T : String) (r : ℚ) (e : String),
      translate_text env w₁ T r e = translate_text env w₂ T r e) ∧
    (∀ (w₁ w₂ : Nat) (t : String) (dim : Nat),
      embed_text (none : EmbedBackend) w₁ t dim
        = embed_text (none : EmbedBackend) w₂ t dim) ∧
    (∀ (b : EmbedBackend) (w₁ w₂ : Nat) (t : String) (dim : Nat),
      embed_text b w₁ t dim = embed_text b w₂ t dim) :=
  ⟨fun _ _ _ _ _ _ => rfl, fun _ _ _ _ => rfl, fun _ _ _ _ _ => rfl⟩

/-! ## C2 — how many records `translate_text` returns -/

/-- C2, counterexample.  The code splits on *whitespace that follows*
terminal punctuation (`(?<=[.!?])\s+`), not on the punctuation characters:
for `"a.b"` (no whitespace after the `.`) it returns a single record, while
the spec's count — splitting on `.`, `!`, `?` themselves — gives two
non-empty sentences. -/
theorem sentence_count_spec_split_cex :
    (translate_text noEngines 0 "a.b").length = 1 ∧
    specSentenceCount "a.b" = 2 := by
  decide

/-- C2 (amended): the number of records equals the number of parts of the
stripped text under the regex split on whitespace-runs immediately preceded
by `.`, `!` or `?`, counting only parts that are non-empty after stripping;
and empty or whitespace-only input yields the empty list. -/
theorem sentence_count_eq_regex_split :
    ∀ (env : EngineEnv) (world : Nat) (T : String) (r : ℚ) (e : String),
      (translate_text env world T r e).length
          = (nonEmptySentenceParts T).length ∧
      (pyStrip T = "" → translate_text env world T r e = []) := by
  intro env world T r e
  constructor
  · simp [translate_text]
  · intro h
    simp [translate_text, nonEmptySentenceParts, h]

/-- C2, witness: whitespace-only input yields the empty record list. -/
theorem sentence_count_eq_regex_split_witness :
    translate_text noEngines 0 "  " (8 / 10) "core" = [] :=
  (sentence_count_eq_regex_split noEngines 0 "  " (8 / 10) "core").2 (by decide)

/-! ## C8 — input validation at the orchestrator -/

/-- C8, counterexample.  A doubly malformed call — a non-string text
(Python `None`) *and* a mirror rate of `2 ∉ [0,1]` — does not fail fast with
a typed error: the orchestrator coerces the falsy text to `""` and returns
an empty list normally, and no code on this path inspects the mirror rate. -/
theorem malformed_call_no_fail_fast_cex :
    translate_text_dyn noEngines 0 PyVal.none 2 "core" = Except.ok [] := by
  decide

/-- C8 (amended): the orchestrator validates neither argument.  A falsy
non-string text (`None` or `0`) is coerced by `(text or "")` to the empty
string and yields `.ok []`; a truthy non-string raises `AttributeError` only
because `.strip()` is missing on it; the mirror rate — in range or not — is
passed through to synthesis unchecked; and for every actual string (with the
spec-modelled `core` being total) the orchestrator returns normally. -/
theorem orchestrator_input_handling :
    (∀ (env : EngineEnv) (world : Nat) (r : ℚ) (e : String),
      translate_text_dyn env world PyVal.none r e = .ok [] ∧
      translate_text_dyn env world (.int 0) r e = .ok []) ∧
    (∀ (env : EngineEnv) (world : Nat) (n : Int) (r : ℚ) (e : String),
      n ≠ 0 → translate_text_dyn env world (.int n) r e = .error .attributeError) ∧
    (∀ (env : EngineEnv) (world : Nat) (s : String) (r : ℚ) (e : String),
      translate_text_dyn env world (.str s) r e
        = .ok (translate_text env world s r e)) := by
  refine ⟨?_, ?_, ?_⟩
  · intro env world r e
    exact ⟨rfl, rfl⟩
  · intro env world n r e h
    show (if n = 0 then _ else _) = _
    rw [if_neg h]
  · intro env world s r e
    rfl

/-- C8, witness: a truthy non-string raises `AttributeError`. -/
theorem orchestrator_input_handling_witness :
    translate_text_dyn noEngines 0 (.int 5) 1 "core"
      = Except.error PyErr.attributeError :=
  orchestrator_input_handling.2.1 noEngines 0 5 1 "core" (by decide)

/-! ## C9 — alternate-engine failure falls back to `core` -/

/-- C9: whenever an alternate engine (`chiasmus`, `transformer`,
`test_suite`) is requested but its module is missing or its call raises
(modelled by the environment reporting `none` / `testSuiteOk = false`),
`translate_sentence` still returns a record — the record built by the
baseline path — and its `engine` field is `"core"`, the actually-used
engine, not the requested one. -/
theorem engine_fallback_reports_core :
    ∀ (env : EngineEnv) (world : Nat) (text : String) (r : ℚ),
      (env.chiasmusAttempt (pyStrip text) = none →
        (translate_sentence env world text r "chiasmus").engine = "core") ∧
      (env.transformerAttempt (pyStrip text) r = none →
        (translate_sentence env world text r "transformer").engine = "core") ∧
      (env.testSuiteOk = false →
        (translate_sentence env world text r "test_suite").engine = "core") := by
  intro env world text r
  refine ⟨?_, ?_, ?_⟩
  · intro h
    simp [translate_sentence, h]
  · intro h
    simp [translate_sentence, h]
  · intro h
    simp [translate_sentence, h]

/-- C9, witness: in the shipped tree (no alternate engine available) each of
the three alternate-engine requests yields an `engine = "core"` record. -/
theorem engine_fallback_reports_core_witness :
    (translate_sentence noEngines 0 "Hello world." (8 / 10) "chiasmus").engine
        = "core" ∧
    (translate_sentence noEngines 0 "Hello world." (8 / 10) "transformer").engine
        = "core" ∧
    (translate_sentence noEngines 0 "Hello world." (8 / 10) "test_suite").engine
        = "core" :=
  ⟨(engine_fallback_reports_core noEngines 0 "Hello world." (8 / 10)).1 rfl,
   (engine_fallback_reports_core noEngines 0 "Hello world." (8 / 10)).2.1 rfl,
   (engine_fallback_reports_core noEngines 0 "Hello world." (8 / 10)).2.2 rfl⟩

/-! ## C3 — vowel harmony drives allomorph selection -/

/-- If a word has at least one classified vowel and all of them are front,
`get_vowel_harmony` returns `"front"`. -/
lemma harmony_front_of_tags (root : String) (hne : harmonyTags root ≠ [])
    (hall : ∀ t ∈ harmonyTags root, t = "front") :
    get_vowel_harmony root = "front" := by
  have h1 : (harmonyTags root).filter (· = "front") = harmonyTags root :=
    List.filter_eq_self.mpr (by intro a ha; simp [hall a ha])
  have h2 : (harmonyTags root).filter (· = "back") = [] := by
    rw [List.filter_eq_nil_iff]
    intro a ha
    simp [hall a ha]
  show (if harmonyTags root = [] then "back"
    else if ((harmonyTags root).filter (· = "back")).length
        < ((harmonyTags root).filter (· = "front")).length
      then "front" else "back") = "front"
  rw [if_neg hne, h1, h2]
  simp [List.length_pos.mpr hne]

/-- If all of a word's classified vowels are back (in particular if it has
none), `get_vowel_harmony` returns `"back"`. -/
lemma harmony_back_of_tags (root : String)
    (hall : ∀ t ∈ harmonyTags root, t = "back") :
    get_vowel_harmony root = "back" := by
  show (if harmonyTags root = [] then "back"
    else if ((harmonyTags root).filter (· = "back")).length
        < ((harmonyTags root).filter (· = "front")).length
      then "front" else "back") = "back"
  by_cases hne : harmonyTags root = []
  · rw [if_pos hne]
  · have h1 : (harmonyTags root).filter (· = "front") = [] := by
      rw [List.filter_eq_nil_iff]
      intro a ha
      simp [hall a ha]
    rw [if_neg hne, h1]
    simp

/-- C3: the front and back vowel sets are disjoint; the harmony class is by
count comparison with ties and vowel-less roots defaulting to back; and a
root whose classified vowels are all front (resp. all back) selects the front
(resp. back) allomorph of every suffix attached by noun inflection, verb
inflection and derivation. -/
theorem vowel_harmony_allomorphs :
    (∀ c ∈ FRONT_VOWELS, c ∉ BACK_VOWELS) ∧
    (∀ w : String, get_vowel_harmony w =
      if ((harmonyTags w).filter (· = "back")).length
          < ((harmonyTags w).filter (· = "front")).length
      then "front" else "back") ∧
    (∀ root : String, harmonyTags root ≠ [] →
      (∀ t ∈ harmonyTags root, t = "front") →
      (∀ c n, (inflect_noun root c n).surface_form = nounSurface root c n "front") ∧
      (∀ t a ev, (inflect_verb root t a ev).surface_form
          = verbSurface root t a ev "front") ∧
      (∀ dt pos p, DERIVATIONAL_SUFFIXES dt = some p →
        ∃ w, derive_word root dt pos = Except.ok w ∧
          w.surface_form = root ++ p.front)) ∧
    (∀ root : String, (∀ t ∈ harmonyTags root, t = "back") →
      (∀ c n, (inflect_noun root c n).surface_form = nounSurface root c n "back") ∧
      (∀ t a ev, (inflect_verb root t a ev).surface_form
          = verbSurface root t a ev "back") ∧
      (∀ dt pos p, DERIVATIONAL_SUFFIXES dt = some p →
        ∃ w, derive_word root dt pos = Except.ok w ∧
          w.surface_form = root ++ p.back)) := by
  refine ⟨by decide, ?_, ?_, ?_⟩
  · intro w
    show (if harmonyTags w = [] then "back"
      else if ((harmonyTags w).filter (· = "back")).length
          < ((harmonyTags w).filter (· = "front")).length
        then "front" else "back") = _
    by_cases h : harmonyTags w = []
    · rw [if_pos h, h]
      simp
    · rw [if_neg h]
  · intro root hne hall
    have hf := harmony_front_of_tags root hne hall
    refine ⟨fun c n => ?_, fun t a ev => ?_, fun dt pos p hdt => ?_⟩
    · show nounSurface root c n (get_vowel_harmony root) = _
      rw [hf]
    · show verbSurface root t a ev (get_vowel_harmony root) = _
      rw [hf]
    · refine ⟨_, by unfold derive_word; rw [hdt], ?_⟩
      show root ++ selHarmony p (get_vowel_harmony root) = root ++ p.front
      rw [hf]
      unfold selHarmony
      rw [if_pos rfl]
  · intro root hall
    have hb := harmony_back_of_tags root hall
    refine ⟨fun c n => ?_, fun t a ev => ?_, fun dt pos p hdt => ?_⟩
    · show nounSurface root c n (get_vowel_harmony root) = _
      rw [hb]
    · show verbSurface root t a ev (get_vowel_harmony root) = _
      rw [hb]
    · refine ⟨_, by unfold derive_word; rw [hdt], ?_⟩
      show root ++ selHarmony p (get_vowel_harmony root) = root ++ p.back
      rw [hb]
      unfold selHarmony
      rw [if_neg (by decide)]

/-- C3, witness: the all-front root `"ie"` takes the front allomorphs, the
all-back root `"ao"` the back ones. -/
theorem vowel_harmony_allomorphs_witness :
    (inflect_noun "ie" Case.accusative Number.plural).surface_form
        = nounSurface "ie" Case.accusative Number.plural "front" ∧
    (inflect_noun "ao" Case.accusative Number.singular).surface_form
        = nounSurface "ao" Case.accusative Number.singular "back" ∧
    (∃ w, derive_word "ie" "agent" "noun" = Except.ok w ∧
      w.surface_form = "ie" ++ "-ész") :=
  ⟨(vowel_harmony_allomorphs.2.2.1 "ie" (by decide) (by decide)).1
      Case.accusative Number.plural,
   (vowel_harmony_allomorphs.2.2.2 "ao" (by decide)).1
      Case.accusative Number.singular,
   (vowel_harmony_allomorphs.2.2.1 "ie" (by decide) (by decide)).2.2
      "agent" "noun" ⟨"-ész", "-ász"⟩ (by decide)⟩

/-! ## C4 and C10 — syllable validity and the generation loop -/

/-- What acceptance by `is_valid_syllable` guarantees structurally. -/
lemma valid_syllable_shape (s : Syllable) (h : is_valid_syllable s = true) :
    s.nucleus ≠ "" ∧ (2 ≤ s.onset.length → s.onset ∈ valid_onsets) ∧
    (2 ≤ s.coda.length → s.coda ∈ valid_codas) := by
  unfold is_valid_syllable at h
  simp only [List.contains, Bool.and_eq_true, Bool.or_eq_true,
    decide_eq_true_eq, beq_iff_eq, bne_iff_ne, List.elem_eq_mem] at h
  obtain ⟨⟨ho, hc⟩, hn⟩ := h
  refine ⟨hn, ?_, ?_⟩
  · intro h2
    rcases ho with h1 | hmem
    · omega
    · exact hmem
  · intro h2
    rcases hc with (h0 | h1) | hmem
    · omega
    · omega
    · exact hmem

/-- `rng.choice` on a non-empty list returns a member. -/
lemma listChoice_mem (l : List String) (hl : l ≠ []) (k : Nat) :
    listChoice l k ∈ l := by
  unfold listChoice
  have hlen : 0 < l.length := List.length_pos.mpr hl
  have hk : k % l.length < l.length := Nat.mod_lt _ hlen
  rw [List.getD_eq_getElem?_getD, List.getElem?_eq_getElem hk]
  exact List.getElem_mem hk

/-- The cluster-extension step keeps a short onset short unless it lands in
the valid-onset table. -/
lemma mkOnsetExtend_ok (cons : List String) (wc : Bool) (cidx : Nat)
    (onset1 : List String) (h1 : onset1.length ≤ 1) :
    (mkOnsetExtend cons wc cidx onset1).length ≤ 1 ∨
    mkOnsetExtend cons wc cidx onset1 ∈ valid_onsets := by
  unfold mkOnsetExtend
  by_cases hc : (wc && onset1.length == 1) = true
  · rw [if_pos hc]
    by_cases hmem :
        valid_onsets.contains (onset1 ++ [listChoice cons cidx]) = true
    · rw [if_pos hmem]
      right
      simpa [List.contains, List.elem_eq_mem] using hmem
    · rw [if_neg hmem]
      left
      exact h1
  · rw [if_neg hc]
    left
    exact h1

/-- The generated onset is a single consonant at most, or a listed cluster. -/
lemma mkOnset_ok (cons : List String) (w wc : Bool) (idx cidx : Nat) :
    (mkOnset cons w wc idx cidx).length ≤ 1 ∨
    mkOnset cons w wc idx cidx ∈ valid_onsets := by
  unfold mkOnset
  apply mkOnsetExtend_ok
  by_cases hw : (w && !cons.isEmpty) = true
  · rw [if_pos hw]
    rfl
  · rw [if_neg hw]
    simp

/-- The generated coda has at most one consonant. -/
lemma mkCoda_len (useH want : Bool) (idx : Nat) :
    (mkCoda useH want idx).length ≤ 1 := by
  unfold mkCoda
  by_cases hw : want = true
  · rw [if_pos hw]
    by_cases he : (codaInventory useH).isEmpty = true
    · rw [if_pos he]
      simp
    · rw [if_neg he]
      rfl
  · rw [if_neg hw]
    simp

/-- The generated nucleus is never empty when the vowel inventory has no
empty entries. -/
lemma mkNucleus_ne (vows : List String) (idx : Nat)
    (h : ∀ v ∈ vows, v ≠ "") : mkNucleus vows idx ≠ "" := by
  unfold mkNucleus
  by_cases he : vows.isEmpty = true
  · rw [if_pos he]
    decide
  · rw [if_neg he]
    have hne : vows ≠ [] := by
      intro hnil
      rw [hnil] at he
      simp at he
    exact h _ (listChoice_mem _ hne idx)

/-- Every candidate syllable the generation loop builds is valid: the drop
branch of `generate_phonological_word` is unreachable. -/
lemma mkSyllable_valid (o : GenOracle) (i : Nat) :
    is_valid_syllable (mkSyllable o i) = true := by
  unfold is_valid_syllable
  simp only [List.contains, Bool.and_eq_true, Bool.or_eq_true,
    decide_eq_true_eq, beq_iff_eq, bne_iff_ne, List.elem_eq_mem]
  refine ⟨⟨?_, ?_⟩, ?_⟩
  · show (mkOnset (if o.useHangul i then hangulConsonantKeys
        else latinConsonantKeys) (o.wantOnset i) (o.wantCluster i)
        (o.onsetIdx i) (o.clusterIdx i)).length ≤ 1 ∨
      mkOnset (if o.useHangul i then hangulConsonantKeys
        else latinConsonantKeys) (o.wantOnset i) (o.wantCluster i)
        (o.onsetIdx i) (o.clusterIdx i) ∈ valid_onsets
    exact mkOnset_ok _ _ _ _ _
  · have h : (mkSyllable o i).coda.length ≤ 1 :=
      mkCoda_len (o.useHangul i) (o.wantCoda i) (o.codaIdx i)
    omega
  · show mkNucleus (if o.useHangul i then hangulVowelKeys else latinVowelKeys)
      (o.nucleusIdx i) ≠ ""
    apply mkNucleus_ne
    by_cases h : o.useHangul i = true
    · rw [if_pos h]
      decide
    · rw [if_neg h]
      decide

/-- C4: any syllable accepted by `is_valid_syllable` has a non-empty nucleus,
a multi-consonant onset only from the valid-onset table and a multi-consonant
coda only from the valid-coda table; and every syllable assembled by
`generate_phonological_word` before sound changes is accepted and has a
non-empty nucleus — invalid candidates never reach the word. -/
theorem syllable_validity :
    (∀ s : Syllable, is_valid_syllable s = true →
      s.nucleus ≠ "" ∧ (2 ≤ s.onset.length → s.onset ∈ valid_onsets) ∧
      (2 ≤ s.coda.length → s.coda ∈ valid_codas)) ∧
    (∀ (o : GenOracle) (n : Nat), ∀ s ∈ generateSyllables o n,
      is_valid_syllable s = true ∧ s.nucleus ≠ "") := by
  refine ⟨fun s h => valid_syllable_shape s h, ?_⟩
  intro o n s hs
  have hv : is_valid_syllable s = true := (List.mem_filter.mp hs).2
  exact ⟨hv, (valid_syllable_shape s hv).1⟩

/-- A concrete all-Hangul decision sequence (used by the witnesses). -/
def constOracle : GenOracle :=
  { useHangul := fun _ => true, wantOnset := fun _ => true
    onsetIdx := fun _ => 0, wantCluster := fun _ => false
    clusterIdx := fun _ => 0, nucleusIdx := fun _ => 0
    wantCoda := fun _ => false, codaIdx := fun _ => 0 }

/-- A concrete Latin decision sequence that builds the onset cluster `st`. -/
def clusterOracle : GenOracle :=
  { useHangul := fun _ => false, wantOnset := fun _ => true
    onsetIdx := fun _ => 8, wantCluster := fun _ => true
    clusterIdx := fun _ => 2, nucleusIdx := fun _ => 0
    wantCoda := fun _ => false, codaIdx := fun _ => 0 }

/-- C4, witness: a concrete accepted syllable has a non-empty nucleus, and a
concretely generated syllable is accepted. -/
theorem syllable_validity_witness :
    ({ onset := ["s", "t"], nucleus := "a", coda := ["n"] } : Syllable).nucleus
        ≠ "" ∧
    is_valid_syllable (mkSyllable constOracle 0) = true :=
  ⟨(syllable_validity.1 { onset := ["s", "t"], nucleus := "a", coda := ["n"] }
      (by decide)).1,
   (syllable_validity.2 constOracle 1 (mkSyllable constOracle 0) (by decide)).1⟩

/-- C10: for every decision sequence (hence every seed) and every requested
count `n`, the generation loop keeps all `n` syllables — the drop branch is
unreachable — because each candidate extends its onset only through the
valid-onset table, draws its nucleus from a non-empty vowel inventory and
builds codas of at most one consonant. -/
theorem generation_drop_branch_unreachable :
    ∀ (o : GenOracle) (n : Nat),
      (generateSyllables o n).length = n ∧
      (∀ i : Nat, is_valid_syllable (mkSyllable o i) = true) ∧
      (∀ i : Nat, (mkSyllable o i).coda.length ≤ 1) ∧
      (∀ i : Nat, (mkSyllable o i).nucleus ≠ "") ∧
      (∀ i : Nat, 2 ≤ (mkSyllable o i).onset.length →
        (mkSyllable o i).onset ∈ valid_onsets) := by
  intro o n
  have hall : ∀ s ∈ (List.range n).map (mkSyllable o),
      is_valid_syllable s = true := by
    intro s hs
    obtain ⟨i, _, rfl⟩ := List.mem_map.mp hs
    exact mkSyllable_valid o i
  refine ⟨?_, fun i => mkSyllable_valid o i, ?_, ?_, ?_⟩
  · unfold generateSyllables
    rw [List.filter_eq_self.mpr hall]
    simp
  · intro i
    exact mkCoda_len (o.useHangul i) (o.wantCoda i) (o.codaIdx i)
  · intro i
    exact (valid_syllable_shape _ (mkSyllable_valid o i)).1
  · intro i
    exact (valid_syllable_shape _ (mkSyllable_valid o i)).2.1

/-- C10, witness: the Latin cluster oracle yields all three requested
syllables, and its two-consonant onset is a listed valid cluster. -/
theorem generation_drop_branch_unreachable_witness :
    (generateSyllables clusterOracle 3).length = 3 ∧
    (mkSyllable clusterOracle 0).onset ∈ valid_onsets :=
  ⟨(generation_drop_branch_unreachable clusterOracle 3).1,
   (generation_drop_branch_unreachable clusterOracle 3).2.2.2.2 0 (by decide)⟩

end Zyntalic
